import Mathlib

/-!
Shallow embedding of `components/style/shared_lock.rs`: a `SharedRwLock<T>`
wrapper that protects several independently-typed payloads with one shared
`Arc<RwLock<()>>`, together with guard composition (`read_with`, `write_with`)
and write-to-read `downgrade`.

Modelling choices:
* An `Arc<RwLock<()>>` allocation is identified by a `Nat` handle id; pointer
  identity (`same_rwlock`) becomes equality of handle ids.
* The lock system's mutable state is threaded explicitly as `LockState`:
  fresh handle/token counters, the per-handle lists of live shared and live
  exclusive acquisition tokens, and the `Arc` strong reference counts.
* `parking_lot::RwLock` is an external crate; its admission discipline is
  modelled from the spec (acquire-read blocks while a writer is live,
  acquire-write blocks while any reader or writer is live). Blocking is
  modelled as `Option.none`.
* A Rust `assert!` failure (panic) is modelled by `PanicOr.panicked` carrying
  the diagnostic message.
* `RwLockReadGuard` / `RwLockWriteGuard` values are represented by their
  acquisition token ids; the source's `Ref (&'a RwLockReadGuard)`,
  `Downgraded (&'a RwLockWriteGuard)` and `RefMut (&'a mut RwLockWriteGuard)`
  references are represented by the id of the root token they point at
  (faithful to the source, which always stores a reference to the root
  acquisition, never to an intermediate guard).
* Writing through `DerefMut` mutates the wrapper's `UnsafeCell`; functionally,
  it produces the updated wrapper.
-/

namespace SharedLockSpec

/-- Modelled from the spec: the state of the lock system, covering the
`parking_lot::RwLock` admission discipline (external crate, §4.1 Lock Handle)
and `Arc` allocation identity / reference counting. `liveRead h` and
`liveWrite h` list the live shared resp. exclusive acquisition tokens of
handle `h`. -/
structure LockState where
  nextHandle : Nat
  nextToken : Nat
  liveRead : Nat → List Nat
  liveWrite : Nat → List Nat
  refcount : Nat → Nat

/-- The initial state: no handles allocated, no live acquisitions. -/
def LockState.init : LockState :=
  { nextHandle := 0
    nextToken := 0
    liveRead := fun _ => []
    liveWrite := fun _ => []
    refcount := fun _ => 0 }

/-- `Arc::new(RwLock::new(()))`: allocate a fresh handle with strong count 1. -/
def newHandle (s : LockState) : Nat × LockState :=
  (s.nextHandle,
    { s with
      nextHandle := s.nextHandle + 1
      refcount := fun h => if h = s.nextHandle then 1 else s.refcount h })

/-- `Arc::clone`: increment the strong count of an existing handle. -/
def cloneHandle (h : Nat) (s : LockState) : LockState :=
  { s with refcount := fun h2 => if h2 = h then s.refcount h + 1 else s.refcount h2 }

/-- Modelled from the spec: `RwLock::read` of the external `parking_lot`
crate. Blocks (`none`) while an exclusive acquisition is live; otherwise
returns a fresh shared-acquisition token. -/
def acquireRead (h : Nat) (s : LockState) : Option (Nat × LockState) :=
  if s.liveWrite h = [] then
    some (s.nextToken,
      { s with
        nextToken := s.nextToken + 1
        liveRead := fun h2 =>
          if h2 = h then s.nextToken :: s.liveRead h else s.liveRead h2 })
  else none

/-- Modelled from the spec: `RwLock::write` of the external `parking_lot`
crate. Blocks (`none`) while any acquisition is live; otherwise returns a
fresh exclusive-acquisition token. -/
def acquireWrite (h : Nat) (s : LockState) : Option (Nat × LockState) :=
  if s.liveWrite h = [] ∧ s.liveRead h = [] then
    some (s.nextToken,
      { s with
        nextToken := s.nextToken + 1
        liveWrite := fun h2 => if h2 = h then [s.nextToken] else s.liveWrite h2 })
  else none

/-- Dropping a root `RwLockReadGuard`: the shared token is released. -/
def releaseRead (h t : Nat) (s : LockState) : LockState :=
  { s with
    liveRead := fun h2 => if h2 = h then (s.liveRead h).erase t else s.liveRead h2 }

/-- Dropping a root `RwLockWriteGuard`: the exclusive token is released. -/
def releaseWrite (h t : Nat) (s : LockState) : LockState :=
  { s with
    liveWrite := fun h2 => if h2 = h then (s.liveWrite h).erase t else s.liveWrite h2 }

/-- `SharedRwLock<T>`: an `Arc<RwLock<()>>` (by handle id) together with the
`UnsafeCell<T>` payload. -/
structure SharedRwLock (T : Type) where
  rwlock : Nat
  data : T
deriving DecidableEq, Repr

/-- `enum ReadGuardInner<'a>`: `Owned(RwLockReadGuard)`,
`Ref(&RwLockReadGuard)`, `Downgraded(&RwLockWriteGuard)`. Each constructor
carries the id of the root acquisition token it owns or points at. -/
inductive ReadGuardInner where
  | Owned (tok : Nat)
  | Ref (tok : Nat)
  | Downgraded (tok : Nat)
deriving DecidableEq, Repr

/-- `enum WriteGuardInner<'a>`: `Owned(RwLockWriteGuard)`,
`RefMut(&mut RwLockWriteGuard)`. -/
inductive WriteGuardInner where
  | Owned (tok : Nat)
  | RefMut (tok : Nat)
deriving DecidableEq, Repr

/-- The root acquisition token a read-guard proof resolves to. -/
def ReadGuardInner.rootToken : ReadGuardInner → Nat
  | .Owned t => t
  | .Ref t => t
  | .Downgraded t => t

/-- The root acquisition token a write-guard proof resolves to. -/
def WriteGuardInner.rootToken : WriteGuardInner → Nat
  | .Owned t => t
  | .RefMut t => t

/-- Whether a read-guard proof is the *Borrowed* variant of the spec
(the source's `Ref` constructor). -/
def ReadGuardInner.isBorrowed : ReadGuardInner → Bool
  | .Ref _ => true
  | _ => false

/-- `struct ReadGuard<'a, T>`: proof that the lock is held for reading. -/
structure ReadGuard (T : Type) where
  locked_data : SharedRwLock T
  inner_guard : ReadGuardInner
deriving DecidableEq, Repr

/-- `struct WriteGuard<'a, T>`: proof that the lock is held for writing. -/
structure WriteGuard (T : Type) where
  locked_data : SharedRwLock T
  inner_guard : WriteGuardInner
deriving DecidableEq, Repr

/-- Result of an operation that can hit a failed `assert!`: Rust panics
(aborts the operation) with a diagnostic; no value is produced. -/
inductive PanicOr (α : Type) where
  | panicked (msg : String)
  | ok (val : α)
deriving DecidableEq, Repr

/-- `fn same_rwlock(a: *const RwLock<()>, b: *const RwLock<()>) -> bool`:
pointer identity of the two lock allocations. -/
def same_rwlock (a b : Nat) : Bool := a == b

/-- `SharedRwLock::new`: fresh `Arc<RwLock<()>>`, payload stored. -/
def SharedRwLock.new {T : Type} (data : T) (s : LockState) :
    SharedRwLock T × LockState :=
  let p := newHandle s
  ({ rwlock := p.1, data := data }, p.2)

/-- `SharedRwLock::new_with_same_lock`: new wrapper around `data` sharing
`self`'s lock allocation (`self.rwlock.clone()`). -/
def SharedRwLock.new_with_same_lock {T U : Type} (self : SharedRwLock T)
    (data : U) (s : LockState) : SharedRwLock U × LockState :=
  ({ rwlock := self.rwlock, data := data }, cloneHandle self.rwlock s)

/-- `SharedRwLock::read`: acquire the shared lock (`self.rwlock.read()`,
blocking modelled as `none`) and wrap the owned token. -/
def SharedRwLock.read {T : Type} (self : SharedRwLock T) (s : LockState) :
    Option (ReadGuard T × LockState) :=
  match acquireRead self.rwlock s with
  | some (tok, s') =>
      some ({ locked_data := self, inner_guard := ReadGuardInner.Owned tok }, s')
  | none => none

/-- `SharedRwLock::write`: acquire the exclusive lock (`self.rwlock.write()`)
and wrap the owned token. -/
def SharedRwLock.write {T : Type} (self : SharedRwLock T) (s : LockState) :
    Option (WriteGuard T × LockState) :=
  match acquireWrite self.rwlock s with
  | some (tok, s') =>
      some ({ locked_data := self, inner_guard := WriteGuardInner.Owned tok }, s')
  | none => none

/-- The diagnostic of the `assert!` in `SharedRwLock::read_with`. -/
def readWithDiag : String :=
  "Calling SharedRwLock::read_with with a guard from an unrelated RwLock"

/-- The diagnostic of the `assert!` in `SharedRwLock::write_with`. -/
def writeWithDiag : String :=
  "Calling SharedRwLock::write_with with a guard from an unrelated RwLock"

/-- `SharedRwLock::read_with`: assert both wrappers share one lock
allocation, then build a read guard reusing `existing_guard`'s root token.
The source makes no call into the `RwLock`, so the lock state is returned
unchanged in every case. -/
def SharedRwLock.read_with {T U : Type} (self : SharedRwLock T)
    (existing_guard : ReadGuard U) (s : LockState) :
    PanicOr (ReadGuard T) × LockState :=
  (if same_rwlock self.rwlock existing_guard.locked_data.rwlock then
      PanicOr.ok
        { locked_data := self
          inner_guard :=
            match existing_guard.inner_guard with
            | ReadGuardInner.Owned t => ReadGuardInner.Ref t
            | ReadGuardInner.Ref t => ReadGuardInner.Ref t
            | ReadGuardInner.Downgraded t => ReadGuardInner.Downgraded t }
    else PanicOr.panicked readWithDiag, s)

/-- `SharedRwLock::write_with`: assert both wrappers share one lock
allocation, then build a write guard mutably reusing `existing_guard`'s root
exclusive token (`RefMut(&mut **g)` re-borrows the root directly). -/
def SharedRwLock.write_with {T U : Type} (self : SharedRwLock T)
    (existing_guard : WriteGuard U) (s : LockState) :
    PanicOr (WriteGuard T) × LockState :=
  (if same_rwlock self.rwlock existing_guard.locked_data.rwlock then
      PanicOr.ok
        { locked_data := self
          inner_guard :=
            match existing_guard.inner_guard with
            | WriteGuardInner.Owned t => WriteGuardInner.RefMut t
            | WriteGuardInner.RefMut t => WriteGuardInner.RefMut t }
    else PanicOr.panicked writeWithDiag, s)

/-- `WriteGuard::downgrade`: a read guard whose proof is `Downgraded`,
referencing the same exclusive token the write guard holds. The source makes
no call into the `RwLock`, so the lock state is returned unchanged. -/
def WriteGuard.downgrade {T : Type} (self : WriteGuard T) (s : LockState) :
    ReadGuard T × LockState :=
  ({ locked_data := self.locked_data
     inner_guard :=
       ReadGuardInner.Downgraded
         (match self.inner_guard with
          | WriteGuardInner.Owned t => t
          | WriteGuardInner.RefMut t => t) }, s)

/-- `impl Deref for ReadGuard`: check the proof variant, then return the
wrapper's payload. -/
def ReadGuard.deref {T : Type} (self : ReadGuard T) : T :=
  match self.inner_guard with
  | ReadGuardInner.Owned _ => self.locked_data.data
  | ReadGuardInner.Ref _ => self.locked_data.data
  | ReadGuardInner.Downgraded _ => self.locked_data.data

/-- `impl Deref for WriteGuard`. -/
def WriteGuard.deref {T : Type} (self : WriteGuard T) : T :=
  match self.inner_guard with
  | WriteGuardInner.Owned _ => self.locked_data.data
  | WriteGuardInner.RefMut _ => self.locked_data.data

/-- Writing `v` through `impl DerefMut for WriteGuard`: check the proof
variant, then store `v` in the wrapper's `UnsafeCell`. Functionally the
guard's wrapper now carries the new payload. -/
def WriteGuard.deref_mut_write {T : Type} (self : WriteGuard T) (v : T) :
    WriteGuard T :=
  match self.inner_guard with
  | WriteGuardInner.Owned _ =>
      { self with locked_data := { self.locked_data with data := v } }
  | WriteGuardInner.RefMut _ =>
      { self with locked_data := { self.locked_data with data := v } }

/-- Dropping a read guard: only an `Owned` proof releases its token;
`Ref` and `Downgraded` proofs are plain references and release nothing. -/
def ReadGuard.drop {T : Type} (self : ReadGuard T) (s : LockState) : LockState :=
  match self.inner_guard with
  | ReadGuardInner.Owned t => releaseRead self.locked_data.rwlock t s
  | ReadGuardInner.Ref _ => s
  | ReadGuardInner.Downgraded _ => s

/-- Dropping a write guard: only an `Owned` proof releases its token. -/
def WriteGuard.drop {T : Type} (self : WriteGuard T) (s : LockState) : LockState :=
  match self.inner_guard with
  | WriteGuardInner.Owned t => releaseWrite self.locked_data.rwlock t s
  | WriteGuardInner.RefMut _ => s

/-- One atomic step of the lock system: handle allocation or cloning, a
successful acquisition, or a release. -/
inductive Step : LockState → LockState → Prop where
  | newHandleStep (s : LockState) : Step s (newHandle s).2
  | cloneStep (h : Nat) (s : LockState) : Step s (cloneHandle h s)
  | acquireReadStep (h t : Nat) (s s' : LockState) :
      acquireRead h s = some (t, s') → Step s s'
  | acquireWriteStep (h t : Nat) (s s' : LockState) :
      acquireWrite h s = some (t, s') → Step s s'
  | releaseReadStep (h t : Nat) (s : LockState) : Step s (releaseRead h t s)
  | releaseWriteStep (h t : Nat) (s : LockState) : Step s (releaseWrite h t s)

/-- Reflexive-transitive closure of `Step`. -/
inductive StepsFrom : LockState → LockState → Prop where
  | refl (s : LockState) : StepsFrom s s
  | tail {s t u : LockState} : StepsFrom s t → Step t u → StepsFrom s u

/-- A lock state reachable from the initial state. -/
def Reachable (s : LockState) : Prop := StepsFrom LockState.init s

/-- Invariant I3: per handle, at most one live exclusive (write) proof chain,
and never a live reader together with a live writer. -/
def WriterExclusion (s : LockState) : Prop :=
  ∀ h, (s.liveWrite h).length ≤ 1 ∧ (s.liveWrite h ≠ [] → s.liveRead h = [])

end SharedLockSpec

namespace SharedLockSpec

/-- Claim C1: dereferencing a guard returned by `self.read_with existing`
yields `self`'s payload (the payload of the wrapper the composition was
called on), whatever wrapper `existing` came from. -/
theorem composed_read_deref {T U : Type} (self : SharedRwLock T)
    (existing : ReadGuard U) (s : LockState) (g : ReadGuard T)
    (hok : (SharedRwLock.read_with self existing s).1 = PanicOr.ok g) :
    ReadGuard.deref g = self.data := by
  simp only [SharedRwLock.read_with] at hok
  split at hok
  · cases hok
    rcases existing with ⟨ld, ig⟩
    cases ig <;> rfl
  · exact absurd hok (by simp)

/-- Witness for C1: `B = A.new_with_same_lock 42` with `A`'s payload `7`;
composing `B.read_with` over a guard from `A.read` derefs to `42`. -/
theorem composed_read_deref_witness :
    (SharedRwLock.read_with
        (SharedRwLock.new_with_same_lock
          (⟨0, (7 : Nat)⟩ : SharedRwLock Nat) (42 : Nat) LockState.init).1
        (⟨⟨0, (7 : Nat)⟩, ReadGuardInner.Owned 0⟩ : ReadGuard Nat)
        LockState.init).1
      = PanicOr.ok (⟨⟨0, 42⟩, ReadGuardInner.Ref 0⟩ : ReadGuard Nat) ∧
    ReadGuard.deref (⟨⟨0, 42⟩, ReadGuardInner.Ref 0⟩ : ReadGuard Nat) = 42 :=
  ⟨by decide,
   composed_read_deref
     (SharedRwLock.new_with_same_lock
       (⟨0, (7 : Nat)⟩ : SharedRwLock Nat) (42 : Nat) LockState.init).1
     (⟨⟨0, (7 : Nat)⟩, ReadGuardInner.Owned 0⟩ : ReadGuard Nat)
     LockState.init
     (⟨⟨0, 42⟩, ReadGuardInner.Ref 0⟩ : ReadGuard Nat)
     (by decide)⟩

/-- Claim C2: composing across wrappers whose lock allocations differ panics
deterministically with the source's diagnostic, for `read_with` and
`write_with` alike; no guard is ever returned. -/
theorem mismatched_compose_panics {T U V : Type} (self : SharedRwLock T)
    (rg : ReadGuard U) (wg : WriteGuard V) (s : LockState)
    (hr : self.rwlock ≠ rg.locked_data.rwlock)
    (hw : self.rwlock ≠ wg.locked_data.rwlock) :
    (SharedRwLock.read_with self rg s).1 = PanicOr.panicked readWithDiag ∧
    (SharedRwLock.write_with self wg s).1 = PanicOr.panicked writeWithDiag := by
  constructor <;>
    simp [SharedRwLock.read_with, SharedRwLock.write_with, same_rwlock, hr, hw]

/-- Witness for C2: wrapper with handle 1 against guards from handle 0. -/
theorem mismatched_compose_panics_witness :
    (1 : Nat) ≠ 0 ∧
    (SharedRwLock.read_with (⟨1, (5 : Nat)⟩ : SharedRwLock Nat)
        (⟨⟨0, (3 : Nat)⟩, ReadGuardInner.Owned 0⟩ : ReadGuard Nat)
        LockState.init).1 = PanicOr.panicked readWithDiag ∧
    (SharedRwLock.write_with (⟨1, (5 : Nat)⟩ : SharedRwLock Nat)
        (⟨⟨0, (3 : Nat)⟩, WriteGuardInner.Owned 0⟩ : WriteGuard Nat)
        LockState.init).1 = PanicOr.panicked writeWithDiag :=
  ⟨by decide,
   mismatched_compose_panics ⟨1, (5 : Nat)⟩ ⟨⟨0, (3 : Nat)⟩, ReadGuardInner.Owned 0⟩
     ⟨⟨0, (3 : Nat)⟩, WriteGuardInner.Owned 0⟩ LockState.init
     (by decide) (by decide)⟩

/-- Claim C9: `read_with` and `write_with` leave the lock state untouched in
every case — on a handle match they only wrap the existing root token, and on
a mismatch the assertion fires before any acquisition or release. -/
theorem compose_frame {T U V : Type} (self : SharedRwLock T)
    (existing : ReadGuard U) (selfW : SharedRwLock V)
    (existingW : WriteGuard U) (s : LockState) :
    (SharedRwLock.read_with self existing s).2 = s ∧
    (SharedRwLock.write_with selfW existingW s).2 = s :=
  ⟨rfl, rfl⟩

end SharedLockSpec

namespace SharedLockSpec

/-- Helper: a successful `read_with` returns a guard for `self` whose inner
proof is the source's `match` over the existing guard's proof. -/
theorem read_with_ok_shape {T U : Type} (self : SharedRwLock T)
    (existing : ReadGuard U) (s : LockState) (g : ReadGuard T)
    (hok : (SharedRwLock.read_with self existing s).1 = PanicOr.ok g) :
    g.locked_data = self ∧
    g.inner_guard =
      (match existing.inner_guard with
       | ReadGuardInner.Owned t => ReadGuardInner.Ref t
       | ReadGuardInner.Ref t => ReadGuardInner.Ref t
       | ReadGuardInner.Downgraded t => ReadGuardInner.Downgraded t) := by
  simp only [SharedRwLock.read_with] at hok
  split at hok
  · cases hok
    exact ⟨rfl, rfl⟩
  · exact absurd hok (by simp)

/-- Helper: a successful `write_with` returns a guard for `self` whose inner
proof is `RefMut` of the existing guard's root exclusive token. -/
theorem write_with_ok_shape {T U : Type} (self : SharedRwLock T)
    (existing : WriteGuard U) (s : LockState) (g : WriteGuard T)
    (hok : (SharedRwLock.write_with self existing s).1 = PanicOr.ok g) :
    g.locked_data = self ∧
    g.inner_guard = WriteGuardInner.RefMut existing.inner_guard.rootToken := by
  simp only [SharedRwLock.write_with] at hok
  split at hok
  · cases hok
    refine ⟨rfl, ?_⟩
    rcases existing with ⟨ld, ig⟩
    cases ig <;> rfl
  · exact absurd hok (by simp)

/-- Helper: composition preserves the root acquisition token. -/
theorem read_with_ok_rootToken {T U : Type} (self : SharedRwLock T)
    (existing : ReadGuard U) (s : LockState) (g : ReadGuard T)
    (hok : (SharedRwLock.read_with self existing s).1 = PanicOr.ok g) :
    g.inner_guard.rootToken = existing.inner_guard.rootToken := by
  obtain ⟨-, h2⟩ := read_with_ok_shape self existing s g hok
  rcases existing with ⟨ld, ig⟩
  cases ig <;> simp [h2, ReadGuardInner.rootToken]

/-- Claim C3 (amended): on a handle match, `read_with` / `write_with` perform
no acquisition (state unchanged) and reuse the existing guard's root token:
`read_with` yields a *Borrowed* (`Ref`) guard when the existing proof is
`Owned` or `Ref`, and a *Downgraded* guard when the existing proof is
`Downgraded`; `write_with` always yields a *Borrowed-mutable* (`RefMut`)
guard over the existing guard's root exclusive token. -/
theorem compose_reuses_token {T U V : Type} (self : SharedRwLock T)
    (existing : ReadGuard U) (selfW : SharedRwLock V) (existingW : WriteGuard U)
    (s : LockState)
    (hr : self.rwlock = existing.locked_data.rwlock)
    (hw : selfW.rwlock = existingW.locked_data.rwlock) :
    (SharedRwLock.read_with self existing s).2 = s ∧
    (SharedRwLock.write_with selfW existingW s).2 = s ∧
    (∀ t, existing.inner_guard = ReadGuardInner.Owned t →
      (SharedRwLock.read_with self existing s).1
        = PanicOr.ok ⟨self, ReadGuardInner.Ref t⟩) ∧
    (∀ t, existing.inner_guard = ReadGuardInner.Ref t →
      (SharedRwLock.read_with self existing s).1
        = PanicOr.ok ⟨self, ReadGuardInner.Ref t⟩) ∧
    (∀ t, existing.inner_guard = ReadGuardInner.Downgraded t →
      (SharedRwLock.read_with self existing s).1
        = PanicOr.ok ⟨self, ReadGuardInner.Downgraded t⟩) ∧
    (SharedRwLock.write_with selfW existingW s).1
      = PanicOr.ok ⟨selfW, WriteGuardInner.RefMut existingW.inner_guard.rootToken⟩ := by
  refine ⟨rfl, rfl, ?_, ?_, ?_, ?_⟩
  · intro t ht
    simp [SharedRwLock.read_with, same_rwlock, hr, ht]
  · intro t ht
    simp [SharedRwLock.read_with, same_rwlock, hr, ht]
  · intro t ht
    simp [SharedRwLock.read_with, same_rwlock, hr, ht]
  · rcases existingW with ⟨ld, ig⟩
    cases ig <;> simp [SharedRwLock.write_with, same_rwlock, hw,
      WriteGuardInner.rootToken]

/-- Witness for C3: handle-0 wrappers; an `Owned 6` read proof composes to
`Ref 6`, and an `Owned 5` write proof composes to `RefMut 5`. -/
theorem compose_reuses_token_witness :
    (⟨0, (42 : Nat)⟩ : SharedRwLock Nat).rwlock
      = (⟨⟨0, (7 : Nat)⟩, ReadGuardInner.Owned 6⟩ : ReadGuard Nat).locked_data.rwlock ∧
    (SharedRwLock.read_with (⟨0, (42 : Nat)⟩ : SharedRwLock Nat)
        (⟨⟨0, (7 : Nat)⟩, ReadGuardInner.Owned 6⟩ : ReadGuard Nat) LockState.init).1
      = PanicOr.ok (⟨⟨0, 42⟩, ReadGuardInner.Ref 6⟩ : ReadGuard Nat) ∧
    (SharedRwLock.write_with (⟨0, (9 : Nat)⟩ : SharedRwLock Nat)
        (⟨⟨0, (7 : Nat)⟩, WriteGuardInner.Owned 5⟩ : WriteGuard Nat) LockState.init).1
      = PanicOr.ok (⟨⟨0, 9⟩, WriteGuardInner.RefMut 5⟩ : WriteGuard Nat) :=
  ⟨rfl,
   (compose_reuses_token (⟨0, (42 : Nat)⟩ : SharedRwLock Nat)
      (⟨⟨0, (7 : Nat)⟩, ReadGuardInner.Owned 6⟩ : ReadGuard Nat)
      (⟨0, (9 : Nat)⟩ : SharedRwLock Nat)
      (⟨⟨0, (7 : Nat)⟩, WriteGuardInner.Owned 5⟩ : WriteGuard Nat)
      LockState.init rfl rfl).2.2.1 6 rfl,
   (compose_reuses_token (⟨0, (42 : Nat)⟩ : SharedRwLock Nat)
      (⟨⟨0, (7 : Nat)⟩, ReadGuardInner.Owned 6⟩ : ReadGuard Nat)
      (⟨0, (9 : Nat)⟩ : SharedRwLock Nat)
      (⟨⟨0, (7 : Nat)⟩, WriteGuardInner.Owned 5⟩ : WriteGuard Nat)
      LockState.init rfl rfl).2.2.2.2.2⟩

/-- Counterexample for C3 as stated: with matching handles but a *Downgraded*
existing guard, `read_with` returns a guard whose proof is the `Downgraded`
variant — not the *Borrowed* (`Ref`) variant the claim promises. -/
theorem compose_reuses_token_counterexample :
    (SharedRwLock.read_with (⟨0, (1 : Nat)⟩ : SharedRwLock Nat)
        (⟨⟨0, (0 : Nat)⟩, ReadGuardInner.Downgraded 0⟩ : ReadGuard Nat)
        LockState.init).1
      = PanicOr.ok (⟨⟨0, 1⟩, ReadGuardInner.Downgraded 0⟩ : ReadGuard Nat) ∧
    (ReadGuardInner.Downgraded 0).isBorrowed = false :=
  ⟨by decide, by decide⟩

end SharedLockSpec

namespace SharedLockSpec

/-- A concrete lock state in which handle 0 is exclusively locked by the
live write token 3. -/
def exclusiveState : LockState :=
  { nextHandle := 1
    nextToken := 4
    liveRead := fun _ => []
    liveWrite := fun h => if h = 0 then [3] else []
    refcount := fun h => if h = 0 then 1 else 0 }

/-- Claim C4: `downgrade` yields a read guard whose proof is `Downgraded` over
the write guard's own exclusive token; it releases nothing and acquires
nothing, so the handle stays exclusively locked by the same token. -/
theorem downgrade_keeps_exclusive {T : Type} (g : WriteGuard T) (s : LockState)
    (t : Nat) (hx : s.liveWrite g.locked_data.rwlock = [t]) :
    (WriteGuard.downgrade g s).1.inner_guard
      = ReadGuardInner.Downgraded g.inner_guard.rootToken ∧
    (WriteGuard.downgrade g s).2 = s ∧
    (WriteGuard.downgrade g s).2.liveWrite g.locked_data.rwlock = [t] ∧
    (WriteGuard.downgrade g s).2.liveRead g.locked_data.rwlock
      = s.liveRead g.locked_data.rwlock := by
  refine ⟨?_, rfl, hx, rfl⟩
  rcases g with ⟨ld, ig⟩
  cases ig <;> rfl

/-- Witness for C4: a write guard owning token 3 on handle 0 in
`exclusiveState`. -/
theorem downgrade_keeps_exclusive_witness :
    exclusiveState.liveWrite 0 = [3] ∧
    ((WriteGuard.downgrade
        (⟨⟨0, (5 : Nat)⟩, WriteGuardInner.Owned 3⟩ : WriteGuard Nat)
        exclusiveState).1.inner_guard = ReadGuardInner.Downgraded 3 ∧
      (WriteGuard.downgrade
        (⟨⟨0, (5 : Nat)⟩, WriteGuardInner.Owned 3⟩ : WriteGuard Nat)
        exclusiveState).2 = exclusiveState ∧
      (WriteGuard.downgrade
        (⟨⟨0, (5 : Nat)⟩, WriteGuardInner.Owned 3⟩ : WriteGuard Nat)
        exclusiveState).2.liveWrite 0 = [3] ∧
      (WriteGuard.downgrade
        (⟨⟨0, (5 : Nat)⟩, WriteGuardInner.Owned 3⟩ : WriteGuard Nat)
        exclusiveState).2.liveRead 0 = exclusiveState.liveRead 0) :=
  ⟨rfl,
   downgrade_keeps_exclusive
     (⟨⟨0, (5 : Nat)⟩, WriteGuardInner.Owned 3⟩ : WriteGuard Nat)
     exclusiveState 3 rfl⟩

/-- Claim C8: every guard proof resolves to one root token. Composition
preserves the root token; composing from a `Ref` proof yields `Ref` of the
same root (not a nested reference), from a `Downgraded` proof yields
`Downgraded` of the same exclusive token, and `write_with` re-borrows the
root exclusive token directly; hence a twice-composed guard carries the same
root token as a once-composed one. -/
theorem proof_chain_flattening {T U V : Type} (self : SharedRwLock T)
    (existing : ReadGuard U) (selfW : SharedRwLock V) (existingW : WriteGuard U)
    (s : LockState) (g : ReadGuard T) (gw : WriteGuard V)
    (hrok : (SharedRwLock.read_with self existing s).1 = PanicOr.ok g)
    (hwok : (SharedRwLock.write_with selfW existingW s).1 = PanicOr.ok gw) :
    g.inner_guard.rootToken = existing.inner_guard.rootToken ∧
    (∀ t, existing.inner_guard = ReadGuardInner.Ref t →
        g.inner_guard = ReadGuardInner.Ref t) ∧
    (∀ t, existing.inner_guard = ReadGuardInner.Downgraded t →
        g.inner_guard = ReadGuardInner.Downgraded t) ∧
    gw.inner_guard = WriteGuardInner.RefMut existingW.inner_guard.rootToken ∧
    (∀ (T2 : Type) (self2 : SharedRwLock T2) (g2 : ReadGuard T2) (s2 : LockState),
        (SharedRwLock.read_with self2 g s2).1 = PanicOr.ok g2 →
        g2.inner_guard.rootToken = existing.inner_guard.rootToken) := by
  obtain ⟨-, hshape⟩ := read_with_ok_shape self existing s g hrok
  obtain ⟨-, hwshape⟩ := write_with_ok_shape selfW existingW s gw hwok
  refine ⟨read_with_ok_rootToken self existing s g hrok, ?_, ?_, hwshape, ?_⟩
  · intro t ht
    rw [hshape, ht]
  · intro t ht
    rw [hshape, ht]
  · intro T2 self2 g2 s2 h2
    exact (read_with_ok_rootToken self2 g s2 g2 h2).trans
      (read_with_ok_rootToken self existing s g hrok)

/-- Witness for C8: composing a `Ref 2` guard (itself already composed) keeps
root token 2 at depth two; composing an `Owned 5` write guard yields
`RefMut 5`. -/
theorem proof_chain_flattening_witness :
    (⟨⟨0, 11⟩, ReadGuardInner.Ref 2⟩ : ReadGuard Nat).inner_guard.rootToken
      = (⟨⟨0, (7 : Nat)⟩, ReadGuardInner.Ref 2⟩
          : ReadGuard Nat).inner_guard.rootToken ∧
    (⟨⟨0, 9⟩, WriteGuardInner.RefMut 5⟩ : WriteGuard Nat).inner_guard
      = WriteGuardInner.RefMut
          (⟨⟨0, (7 : Nat)⟩, WriteGuardInner.Owned 5⟩
            : WriteGuard Nat).inner_guard.rootToken :=
  ⟨(proof_chain_flattening (⟨0, (42 : Nat)⟩ : SharedRwLock Nat)
      (⟨⟨0, (7 : Nat)⟩, ReadGuardInner.Ref 2⟩ : ReadGuard Nat)
      (⟨0, (9 : Nat)⟩ : SharedRwLock Nat)
      (⟨⟨0, (7 : Nat)⟩, WriteGuardInner.Owned 5⟩ : WriteGuard Nat)
      LockState.init
      (⟨⟨0, 42⟩, ReadGuardInner.Ref 2⟩ : ReadGuard Nat)
      (⟨⟨0, 9⟩, WriteGuardInner.RefMut 5⟩ : WriteGuard Nat)
      (by decide) (by decide)).2.2.2.2
      Nat (⟨0, 11⟩ : SharedRwLock Nat)
      (⟨⟨0, 11⟩, ReadGuardInner.Ref 2⟩ : ReadGuard Nat)
      LockState.init (by decide),
   (proof_chain_flattening (⟨0, (42 : Nat)⟩ : SharedRwLock Nat)
      (⟨⟨0, (7 : Nat)⟩, ReadGuardInner.Ref 2⟩ : ReadGuard Nat)
      (⟨0, (9 : Nat)⟩ : SharedRwLock Nat)
      (⟨⟨0, (7 : Nat)⟩, WriteGuardInner.Owned 5⟩ : WriteGuard Nat)
      LockState.init
      (⟨⟨0, 42⟩, ReadGuardInner.Ref 2⟩ : ReadGuard Nat)
      (⟨⟨0, 9⟩, WriteGuardInner.RefMut 5⟩ : WriteGuard Nat)
      (by decide) (by decide)).2.2.2.1⟩

/-- Claim C10: `downgrade` works on both write-guard proof variants, always
resolving to the root exclusive token; it does not consume the write guard
(pure function of it), so repeated downgrades of the same live write guard
coexist and agree, and each derefs to the write guard's payload. -/
theorem downgrade_from_either_variant {T : Type} (g : WriteGuard T)
    (s s2 : LockState) :
    (WriteGuard.downgrade g s).1.inner_guard
      = ReadGuardInner.Downgraded g.inner_guard.rootToken ∧
    (∀ t, g.inner_guard = WriteGuardInner.Owned t →
        (WriteGuard.downgrade g s).1.inner_guard = ReadGuardInner.Downgraded t) ∧
    (∀ t, g.inner_guard = WriteGuardInner.RefMut t →
        (WriteGuard.downgrade g s).1.inner_guard = ReadGuardInner.Downgraded t) ∧
    ReadGuard.deref (WriteGuard.downgrade g s).1 = WriteGuard.deref g ∧
    (WriteGuard.downgrade g s2).1 = (WriteGuard.downgrade g s).1 := by
  rcases g with ⟨ld, ig⟩
  cases ig <;>
    refine ⟨rfl, ?_, ?_, rfl, rfl⟩ <;>
    intro t ht <;> cases ht <;> rfl

/-- Witness for C10: downgrading an `Owned 3` write guard and a `RefMut 4`
write guard both yield `Downgraded` proofs of the respective root tokens. -/
theorem downgrade_from_either_variant_witness :
    ((WriteGuard.downgrade
        (⟨⟨0, (5 : Nat)⟩, WriteGuardInner.Owned 3⟩ : WriteGuard Nat)
        LockState.init).1.inner_guard = ReadGuardInner.Downgraded 3) ∧
    ((WriteGuard.downgrade
        (⟨⟨0, (5 : Nat)⟩, WriteGuardInner.RefMut 4⟩ : WriteGuard Nat)
        LockState.init).1.inner_guard = ReadGuardInner.Downgraded 4) :=
  ⟨(downgrade_from_either_variant
      (⟨⟨0, (5 : Nat)⟩, WriteGuardInner.Owned 3⟩ : WriteGuard Nat)
      LockState.init LockState.init).2.1 3 rfl,
   (downgrade_from_either_variant
      (⟨⟨0, (5 : Nat)⟩, WriteGuardInner.RefMut 4⟩ : WriteGuard Nat)
      LockState.init LockState.init).2.2.1 4 rfl⟩

end SharedLockSpec

namespace SharedLockSpec

/-- Claim C5: round-trip — after a successful `write`, storing `v` through the
guard's mutable deref, dropping the guard, and calling `read()` on the wrapper
succeeds and the returned guard dereferences to exactly `v`. -/
theorem write_read_roundtrip {T : Type} (w : SharedRwLock T) (v : T)
    (s : LockState) (wg : WriteGuard T) (s1 : LockState)
    (hw : SharedRwLock.write w s = some (wg, s1)) :
    ∃ rg s3,
      SharedRwLock.read (WriteGuard.deref_mut_write wg v).locked_data
        (WriteGuard.drop (WriteGuard.deref_mut_write wg v) s1) = some (rg, s3) ∧
      ReadGuard.deref rg = v := by
  simp only [SharedRwLock.write] at hw
  cases hacq : acquireWrite w.rwlock s with
  | none => rw [hacq] at hw; exact absurd hw (by simp)
  | some p =>
    obtain ⟨tok, s'⟩ := p
    rw [hacq] at hw
    simp only [Option.some.injEq, Prod.mk.injEq] at hw
    obtain ⟨hwg, hs1⟩ := hw
    subst hwg
    subst hs1
    simp only [acquireWrite] at hacq
    split at hacq
    · rename_i hcond
      simp only [Option.some.injEq, Prod.mk.injEq] at hacq
      obtain ⟨htok, hs'⟩ := hacq
      subst htok
      subst hs'
      simp only [WriteGuard.deref_mut_write, WriteGuard.drop]
      have hlw : (releaseWrite w.rwlock s.nextToken
          { s with
            nextToken := s.nextToken + 1
            liveWrite := fun h2 =>
              if h2 = w.rwlock then [s.nextToken] else s.liveWrite h2 }).liveWrite
            w.rwlock = [] := by
        simp [releaseWrite]
      simp [SharedRwLock.read, acquireRead, hlw, ReadGuard.deref]
    · exact absurd hacq (by simp)

/-- Witness for C5: on a fresh wrapper holding `7`, write `42`, drop the
guard, and read back `42`. -/
theorem write_read_roundtrip_witness :
    SharedRwLock.write (⟨0, (7 : Nat)⟩ : SharedRwLock Nat) LockState.init
      = some (⟨⟨0, 7⟩, WriteGuardInner.Owned 0⟩,
              { nextHandle := 0
                nextToken := 1
                liveRead := fun _ => []
                liveWrite := fun h2 => if h2 = 0 then [0] else []
                refcount := fun _ => 0 }) ∧
    (∃ rg s3,
      SharedRwLock.read
        (WriteGuard.deref_mut_write
          (⟨⟨0, 7⟩, WriteGuardInner.Owned 0⟩ : WriteGuard Nat)
          (42 : Nat)).locked_data
        (WriteGuard.drop
          (WriteGuard.deref_mut_write
            (⟨⟨0, 7⟩, WriteGuardInner.Owned 0⟩ : WriteGuard Nat) (42 : Nat))
          { nextHandle := 0
            nextToken := 1
            liveRead := fun _ => []
            liveWrite := fun h2 => if h2 = 0 then [0] else []
            refcount := fun _ => 0 }) = some (rg, s3) ∧
      ReadGuard.deref rg = 42) :=
  have hw :
      SharedRwLock.write (⟨0, (7 : Nat)⟩ : SharedRwLock Nat) LockState.init
        = some (⟨⟨0, 7⟩, WriteGuardInner.Owned 0⟩,
                { nextHandle := 0
                  nextToken := 1
                  liveRead := fun _ => []
                  liveWrite := fun h2 => if h2 = 0 then [0] else []
                  refcount := fun _ => 0 }) := rfl
  ⟨hw, write_read_roundtrip (⟨0, (7 : Nat)⟩ : SharedRwLock Nat) (42 : Nat)
    LockState.init (⟨⟨0, 7⟩, WriteGuardInner.Owned 0⟩ : WriteGuard Nat)
    { nextHandle := 0
      nextToken := 1
      liveRead := fun _ => []
      liveWrite := fun h2 => if h2 = 0 then [0] else []
      refcount := fun _ => 0 } hw⟩

/-- `Step` never decreases the fresh-handle counter. -/
theorem Step.nextHandle_mono {s s' : LockState} (h : Step s s') :
    s.nextHandle ≤ s'.nextHandle := by
  cases h with
  | newHandleStep s => simp [newHandle]
  | cloneStep hh s => simp [cloneHandle]
  | acquireReadStep hh t s s' heq =>
      simp only [acquireRead] at heq
      split at heq
      · simp only [Option.some.injEq, Prod.mk.injEq] at heq
        obtain ⟨-, hs'⟩ := heq
        subst hs'
        exact le_refl _
      · exact absurd heq (by simp)
  | acquireWriteStep hh t s s' heq =>
      simp only [acquireWrite] at heq
      split at heq
      · simp only [Option.some.injEq, Prod.mk.injEq] at heq
        obtain ⟨-, hs'⟩ := heq
        subst hs'
        exact le_refl _
      · exact absurd heq (by simp)
  | releaseReadStep hh t s => simp [releaseRead]
  | releaseWriteStep hh t s => simp [releaseWrite]

/-- Handle freshness is monotone along any run of the lock system. -/
theorem StepsFrom.nextHandle_le {s s' : LockState} (h : StepsFrom s s') :
    s.nextHandle ≤ s'.nextHandle := by
  induction h with
  | refl => exact le_refl _
  | tail hsteps hstep ih => exact le_trans ih hstep.nextHandle_mono

/-- Claim C6: `new_with_same_lock` shares `self`'s handle (identity-equal,
strong count incremented), while a wrapper from `new` and any wrapper from a
later independent `new` have distinct handles (`new` always allocates). -/
theorem lock_domain_identity {T U : Type} (w : SharedRwLock T) (u : U)
    (d1 : T) (d2 : U) (s s' : LockState)
    (hsteps : StepsFrom (SharedRwLock.new d1 s).2 s') :
    (SharedRwLock.new_with_same_lock w u s).1.rwlock = w.rwlock ∧
    (SharedRwLock.new_with_same_lock w u s).2.refcount w.rwlock
      = s.refcount w.rwlock + 1 ∧
    (SharedRwLock.new d1 s).1.rwlock ≠ (SharedRwLock.new d2 s').1.rwlock := by
  refine ⟨rfl, ?_, ?_⟩
  · simp [SharedRwLock.new_with_same_lock, cloneHandle]
  · have h3 := hsteps.nextHandle_le
    have h2 : (SharedRwLock.new d1 s).2.nextHandle = s.nextHandle + 1 := rfl
    rw [h2] at h3
    show s.nextHandle ≠ s'.nextHandle
    omega

/-- Witness for C6: a fresh wrapper from the initial state, then a second
`new` immediately afterwards (zero further steps). -/
theorem lock_domain_identity_witness :
    StepsFrom (SharedRwLock.new (7 : Nat) LockState.init).2
      (SharedRwLock.new (7 : Nat) LockState.init).2 ∧
    ((SharedRwLock.new_with_same_lock (⟨0, (7 : Nat)⟩ : SharedRwLock Nat)
        (9 : Nat) LockState.init).1.rwlock = 0 ∧
      (SharedRwLock.new_with_same_lock (⟨0, (7 : Nat)⟩ : SharedRwLock Nat)
        (9 : Nat) LockState.init).2.refcount 0
        = LockState.init.refcount 0 + 1 ∧
      (SharedRwLock.new (7 : Nat) LockState.init).1.rwlock
        ≠ (SharedRwLock.new (9 : Nat)
            (SharedRwLock.new (7 : Nat) LockState.init).2).1.rwlock) :=
  ⟨StepsFrom.refl _,
   lock_domain_identity (⟨0, (7 : Nat)⟩ : SharedRwLock Nat) (9 : Nat)
     (7 : Nat) (9 : Nat) LockState.init
     (SharedRwLock.new (7 : Nat) LockState.init).2 (StepsFrom.refl _)⟩

end SharedLockSpec

namespace SharedLockSpec

/-- The initial state satisfies writer exclusion. -/
theorem writerExclusion_init : WriterExclusion LockState.init := by
  intro h
  simp [LockState.init]

/-- Every step of the lock system preserves writer exclusion. -/
theorem Step.preserves_writerExclusion {s s' : LockState} (hstep : Step s s')
    (hinv : WriterExclusion s) : WriterExclusion s' := by
  cases hstep with
  | newHandleStep s =>
      intro h
      simpa [newHandle] using hinv h
  | cloneStep hh s =>
      intro h
      simpa [cloneHandle] using hinv h
  | acquireReadStep hh t s s' heq =>
      simp only [acquireRead] at heq
      split at heq
      · rename_i hcond
        simp only [Option.some.injEq, Prod.mk.injEq] at heq
        obtain ⟨-, hs'⟩ := heq
        subst hs'
        intro h
        refine ⟨(hinv h).1, ?_⟩
        intro hne
        by_cases hc : h = hh
        · subst hc
          exact absurd hcond hne
        · simpa [hc] using (hinv h).2 hne
      · exact absurd heq (by simp)
  | acquireWriteStep hh t s s' heq =>
      simp only [acquireWrite] at heq
      split at heq
      · rename_i hcond
        simp only [Option.some.injEq, Prod.mk.injEq] at heq
        obtain ⟨-, hs'⟩ := heq
        subst hs'
        intro h
        by_cases hc : h = hh
        · subst hc
          refine ⟨by simp, ?_⟩
          intro _
          exact hcond.2
        · refine ⟨by simpa [hc] using (hinv h).1, ?_⟩
          intro hne
          exact (hinv h).2 (by simpa [hc] using hne)
      · exact absurd heq (by simp)
  | releaseReadStep hh t s =>
      intro h
      refine ⟨(hinv h).1, ?_⟩
      intro hne
      have hrd : s.liveRead h = [] := (hinv h).2 hne
      simp only [releaseRead]
      by_cases hc : h = hh
      · subst hc
        simp [hrd]
      · simp [hc, hrd]
  | releaseWriteStep hh t s =>
      intro h
      constructor
      · by_cases hc : h = hh
        · subst hc
          simp only [releaseWrite, if_pos rfl]
          exact le_trans ((List.erase_sublist _ _).length_le) (hinv h).1
        · simpa [releaseWrite, hc] using (hinv h).1
      · intro hne
        by_cases hc : h = hh
        · subst hc
          simp only [releaseWrite, if_pos rfl] at hne
          have hnz : s.liveWrite h ≠ [] := by
            intro hz
            rw [hz] at hne
            simp at hne
          exact (hinv h).2 hnz
        · simp only [releaseWrite, if_neg hc] at hne
          exact (hinv h).2 hne

/-- Claim C7 (invariant I3): in every reachable lock state, each handle has
at most one live exclusive (write) proof chain, and no live shared (read)
proof chain coexists with a live exclusive one. -/
theorem writer_exclusion_invariant (s : LockState) (hreach : Reachable s) :
    WriterExclusion s := by
  induction hreach with
  | refl => exact writerExclusion_init
  | tail hsteps hstep ih => exact hstep.preserves_writerExclusion ih

/-- Witness for C7: a state reached by allocating a handle, cloning it, and
performing a (vacuous) write release; the invariant holds at handle 0. -/
theorem writer_exclusion_invariant_witness :
    Reachable (releaseWrite 0 0 (cloneHandle 0 (newHandle LockState.init).2)) ∧
    (((releaseWrite 0 0
        (cloneHandle 0 (newHandle LockState.init).2)).liveWrite 0).length ≤ 1 ∧
      ((releaseWrite 0 0
          (cloneHandle 0 (newHandle LockState.init).2)).liveWrite 0 ≠ [] →
        (releaseWrite 0 0
          (cloneHandle 0 (newHandle LockState.init).2)).liveRead 0 = [])) :=
  have hreach :
      Reachable (releaseWrite 0 0 (cloneHandle 0 (newHandle LockState.init).2)) :=
    StepsFrom.tail
      (StepsFrom.tail
        (StepsFrom.tail (StepsFrom.refl LockState.init)
          (Step.newHandleStep LockState.init))
        (Step.cloneStep 0 (newHandle LockState.init).2))
      (Step.releaseWriteStep 0 0 (cloneHandle 0 (newHandle LockState.init).2))
  ⟨hreach,
   writer_exclusion_invariant
     (releaseWrite 0 0 (cloneHandle 0 (newHandle LockState.init).2)) hreach 0⟩

end SharedLockSpec
